import Mathlib

/-!
Verification of `nerfstudio/models/gaussian_splatting.py` (the
`GaussianSplatting` model: camera-convention conversion, rasterization
invocation, render post-processing and underwater compositing).

Shallow embedding conventions:
* Camera matrices and image pixel values carried by the pipeline are
  modelled over `ℚ` (exact values for the tensor arithmetic the code
  performs: addition, subtraction, negation, division, clamping, max),
  so that definitions are executable and concrete instances decidable.
  The field-of-view functions and the spherical-harmonic colour path use
  `ℝ` because they involve `atan`, `tan` and vector norms.
* Tensors are total functions on `Fin`-indexed dimensions, in the same
  dimension order as the torch tensors (`C × H × W` for images; batched
  tensors get a leading `Fin 1`).
* The GPU rasterizer, the `eval_sh` helper and the two deepseecolor
  networks (`AttenuateNet`, `BackscatterNet`) are external black boxes
  for this file: they appear as function parameters.
* `numpy.linalg.inv` raises `LinAlgError` on a singular matrix; the
  embedding of `ns2gs_camera` returns `Except` with that error value.
-/

namespace GaussianSplatting

/-! ## Field of view conversions

`focal2fov` and `fov2focal` are imported by the model from
`nerfstudio/utils/gaussian_splatting_graphics_utils.py`, a file that is
not part of this source tree; they are modelled from the spec. -/

/-- Modelled from the spec: `focal2fov` of
`nerfstudio/utils/gaussian_splatting_graphics_utils.py` (absent from the
source tree), `fov = 2·atan(dimension / (2·focal_length))`. -/
noncomputable def focal2fov (focal pixels : ℝ) : ℝ :=
  2 * Real.arctan (pixels / (2 * focal))

/-- Modelled from the spec: `fov2focal` of
`nerfstudio/utils/gaussian_splatting_graphics_utils.py` (absent from the
source tree), `focal = dimension / (2·tan(fov/2))`. -/
noncomputable def fov2focal (fov pixels : ℝ) : ℝ :=
  pixels / (2 * Real.tan (fov / 2))

/-! ## Construction-time compositing switch

`__init__` receives `backscatter_model_path` and
`attenuation_model_path`, both `str` with default `None`; a Python value
that is either a string or `None` is an `Option String` (`none` is
Python `None`). -/

/-- Python `path != "None"` where `path : Option String`. -/
def pyStrNeNone (path : Option String) : Bool :=
  decide (path ≠ some "None")

/-- Line 74: `self.do_seathru = attenuation_model_path != "None" and
backscatter_model_path != "None"`. -/
def do_seathru (attenuation_model_path backscatter_model_path : Option String) : Bool :=
  pyStrNeNone attenuation_model_path && pyStrNeNone backscatter_model_path

/-- The construction-time state `__init__` leaves behind that the render
path consults: the `do_seathru` flag, and whether the two deepseecolor
models were loaded (`if self.do_seathru: ... load_state_dict ...`). -/
structure InitState where
  do_seathru : Bool
  models_loaded : Bool

/-- Lines 74-85 of `__init__`: set `do_seathru` from the two path
arguments and load the compositing models exactly when it is true. -/
def initState (attenuation_model_path backscatter_model_path : Option String) : InitState :=
  let ds := do_seathru attenuation_model_path backscatter_model_path
  { do_seathru := ds, models_loaded := ds }

/-! ## Camera conversion (`ns2gs_camera`)

`ns_camera.camera_to_worlds` is a `3 × 4` matrix; the method homogenizes
it, optionally reorients it, flips two columns, inverts, and extracts
`R` and `T`.  The matrix arithmetic is exact (`ℚ`). -/

/-- Line 151: append the row `[0, 0, 0, 1]` below the `3 × 4`
camera-to-world matrix. -/
def homogenize (c2w : Matrix (Fin 3) (Fin 4) ℚ) : Matrix (Fin 4) (Fin 4) ℚ :=
  Matrix.of fun i j => if h : (i : ℕ) < 3 then c2w ⟨i, h⟩ j else if j = 3 then 1 else 0

/-- Lines 154-155: left-multiply by `orientation_transform` when one is
configured (`self.orientation_transform is not None`). -/
def applyOrientation (orientation_transform : Option (Matrix (Fin 4) (Fin 4) ℚ))
    (c2w : Matrix (Fin 4) (Fin 4) ℚ) : Matrix (Fin 4) (Fin 4) ℚ :=
  match orientation_transform with
  | some t => t * c2w
  | none => c2w

/-- Line 158: `c2w[:3, 1:3] *= -1` — negate the entries in rows `0..2`,
columns `1..2`. -/
def axisFlip (m : Matrix (Fin 4) (Fin 4) ℚ) : Matrix (Fin 4) (Fin 4) ℚ :=
  Matrix.of fun i j =>
    if (i : ℕ) < 3 ∧ ((j : ℕ) = 1 ∨ (j : ℕ) = 2) then -(m i j) else m i j

/-- The corrected camera-to-world matrix handed to `np.linalg.inv`
(lines 150-158). -/
def correctedC2w (orientation_transform : Option (Matrix (Fin 4) (Fin 4) ℚ))
    (c2w : Matrix (Fin 3) (Fin 4) ℚ) : Matrix (Fin 4) (Fin 4) ℚ :=
  axisFlip (applyOrientation orientation_transform (homogenize c2w))

/-- Executable matrix inverse, `det⁻¹ • adjugate`; coincides with
Mathlib's `Matrix.inv` over `ℚ`. -/
def matInv (m : Matrix (Fin 4) (Fin 4) ℚ) : Matrix (Fin 4) (Fin 4) ℚ :=
  (m.det)⁻¹ • m.adjugate

/-- What `ns2gs_camera` can raise: `np.linalg.inv` raises
`numpy.linalg.LinAlgError` on a singular matrix (line 161); the spec's
error taxonomy additionally names `DegenerateCameraError`, which nothing
in the code raises. -/
inductive CameraError where
  | linAlgError
  | degenerateCameraError
deriving DecidableEq

/-- The `R` and `T` fields of the `GaussianSplattingCamera` built by
`ns2gs_camera` (lines 149-176): `R = np.transpose(w2c[:3, :3])`,
`T = w2c[:3, 3]` where `w2c = np.linalg.inv(c2w)` after homogenizing,
reorienting and axis-flipping `c2w`.  Returns the `LinAlgError` that
`np.linalg.inv` raises when the corrected matrix is singular. -/
def ns2gs_camera (orientation_transform : Option (Matrix (Fin 4) (Fin 4) ℚ))
    (camera_to_worlds : Matrix (Fin 3) (Fin 4) ℚ) :
    Except CameraError (Matrix (Fin 3) (Fin 3) ℚ × (Fin 3 → ℚ)) :=
  if (correctedC2w orientation_transform camera_to_worlds).det = 0 then
    .error .linAlgError
  else
    .ok (Matrix.of fun i j =>
           matInv (correctedC2w orientation_transform camera_to_worlds)
             (Fin.castSucc j) (Fin.castSucc i),
         fun i =>
           matInv (correctedC2w orientation_transform camera_to_worlds)
             (Fin.castSucc i) 3)

/-! ## Output bundle (`get_outputs_for_camera_ray_bundle`, lines 108-147)

Image tensors are `C × H × W` functions over `ℚ`; adding the batch
dimension (`torch.unsqueeze(·, dim=0)`) prepends a `Fin 1`.  The
`.squeeze()` calls on lines 138-141 remove the size-1 batch dimension
(the code then calls `.permute(1, 2, 0)`, which requires the squeezed
tensor to still have three dimensions, so `H, W > 1` there); `squeeze`
is modelled as dropping the batch index. -/

/-- A `C × H × W` image tensor with exact pixel values. -/
abbrev Image (C H W : ℕ) := Fin C → Fin H → Fin W → ℚ

/-- A batched `1 × C × H × W` image tensor. -/
abbrev BImage (C H W : ℕ) := Fin 1 → Fin C → Fin H → Fin W → ℚ

/-- `torch.clamp(x, lo, hi)`. -/
def qclamp (x lo hi : ℚ) : ℚ := min (max x lo) hi

/-- `torch.unsqueeze(img, dim=0)`. -/
def unsqueeze {C H W : ℕ} (img : Image C H W) : BImage C H W := fun _ => img

/-- `.squeeze()` on a `1 × C × H × W` tensor whose other dimensions
exceed one: drop the batch dimension. -/
def squeeze {C H W : ℕ} (b : BImage C H W) : Image C H W := b 0

/-- `.permute(1, 2, 0)`: reorder a `C × H × W` tensor to `H × W × C`. -/
def permuteHWC {C H W : ℕ} (img : Image C H W) : Fin H → Fin W → Fin C → ℚ :=
  fun h w c => img c h w

/-- `torch.max(t)` on a non-empty `C × H × W` tensor: the maximum entry. -/
def maxEntry {C H W : ℕ} [NeZero C] [NeZero H] [NeZero W] (img : Image C H W) : ℚ :=
  Finset.univ.sup' Finset.univ_nonempty fun p : Fin C × Fin H × Fin W => img p.1 p.2.1 p.2.2

/-- IEEE definedness of a float division: `x / y` evaluates to a finite
float only when `y ≠ 0` (with `y = 0` it is `NaN` or `±inf`, modelled as
`none`); when defined it is the exact quotient up to rounding. -/
def floatDiv (x y : ℚ) : Option ℚ := if y = 0 then none else some (x / y)

/-- A value of the dictionary returned by
`get_outputs_for_camera_ray_bundle`: an `H × W × 3` or `H × W × 1`
image. -/
inductive OutValue (H W : ℕ) where
  | img3 : (Fin H → Fin W → Fin 3 → ℚ) → OutValue H W
  | img1 : (Fin H → Fin W → Fin 1 → ℚ) → OutValue H W
deriving DecidableEq

/-- Lines 108-147 of `get_outputs_for_camera_ray_bundle`, from the point
where the rasterizer's results are read: `image` is
`render_results["render"]` and `depth_image` is
`render_results["rendered_depth"]` (the GPU rasterizer is a black box);
`at_model` and `bs_model` are the deepseecolor networks (black boxes on
batched tensors, `AttenuateNet` returning the `(direct, attenuation
map)` pair).  `ds` is the construction-time `self.do_seathru` flag. -/
def get_outputs_for_camera_ray_bundle {H W : ℕ} [NeZero H] [NeZero W]
    (ds : Bool)
    (at_model : BImage 3 H W → BImage 1 H W → BImage 3 H W × BImage 3 H W)
    (bs_model : BImage 1 H W → BImage 3 H W)
    (image : Image 3 H W) (depth_image : Image 1 H W) :
    List (String × OutValue H W) :=
  let max_depth := maxEntry depth_image
  let rgb := permuteHWC fun c h w => qclamp (image c h w) 0 1
  let depth := permuteHWC fun c h w => depth_image c h w / max_depth
  if ds then
    let depth_batch := unsqueeze depth_image
    let rgb_batch := unsqueeze image
    let am := at_model rgb_batch depth_batch
    let direct := am.1
    let attenuation_map := am.2
    let backscatter := bs_model depth_batch
    let underwater_image : BImage 3 H W :=
      fun b c h w => qclamp (direct b c h w + backscatter b c h w) 0 1
    [("rgb", .img3 rgb),
     ("depth", .img1 (permuteHWC depth_image)),
     ("backscatter", .img3 (permuteHWC (squeeze backscatter))),
     ("attenuation", .img3 (permuteHWC (squeeze attenuation_map))),
     ("direct", .img3 (permuteHWC (squeeze direct))),
     ("underwater_image", .img3 (permuteHWC (squeeze underwater_image)))]
  else
    [("rgb", .img3 rgb), ("depth", .img1 depth)]

/-! ## The static `render` method (lines 178-263)

The rasterizer (`GaussianRasterizer`) and `eval_sh` are black boxes and
appear as function parameters.  `n` is the number of Gaussians and `m`
the number of spherical-harmonic coefficients per colour channel, so
`pc.get_features` has shape `n × m × 3`; the
`.transpose(1, 2).view(-1, 3, (max_sh_degree + 1) ** 2)` on line 236 is
the dimension swap `n × 3 × m` (the reshape is the identity because
`m = (max_sh_degree + 1)^2` for the loaded asset). -/

/-- The fields of `PipelineParams` (lines 34-38). -/
structure PipelineParams where
  convert_SHs_python : Bool
  compute_cov3D_python : Bool
  debug : Bool

/-- `PipelineParams.__init__`: all three flags start `False`. -/
def PipelineParams.default : PipelineParams :=
  { convert_SHs_python := false, compute_cov3D_python := false, debug := false }

/-- The `GaussianSplattingField` interface that `render` reads (`pc`). -/
structure GaussianField (n m : ℕ) where
  get_xyz : Fin n → Fin 3 → ℝ
  get_opacity : Fin n → ℝ
  get_features : Fin n → Fin m → Fin 3 → ℝ
  get_scaling : Fin n → Fin 3 → ℝ
  get_rotation : Fin n → Fin 4 → ℝ
  get_covariance : ℝ → Fin n → Fin 6 → ℝ
  active_sh_degree : ℕ
  max_sh_degree : ℕ

/-- The `GaussianSplattingCamera` fields that `render` reads
(`viewpoint_camera`). -/
structure ViewpointCamera where
  image_height : ℕ
  image_width : ℕ
  FoVx : ℝ
  FoVy : ℝ
  world_view_transform : Matrix (Fin 4) (Fin 4) ℝ
  full_proj_transform : Matrix (Fin 4) (Fin 4) ℝ
  camera_center : Fin 3 → ℝ

/-- `GaussianRasterizationSettings` (lines 198-211). -/
structure GaussianRasterizationSettings where
  image_height : ℕ
  image_width : ℕ
  tanfovx : ℝ
  tanfovy : ℝ
  bg : Fin 3 → ℝ
  scale_modifier : ℝ
  viewmatrix : Matrix (Fin 4) (Fin 4) ℝ
  projmatrix : Matrix (Fin 4) (Fin 4) ℝ
  sh_degree : ℕ
  campos : Fin 3 → ℝ
  prefiltered : Bool
  debug : Bool

/-- The keyword arguments of the rasterizer call (lines 247-255). -/
structure RasterizerInput (n m : ℕ) where
  means3D : Fin n → Fin 3 → ℝ
  means2D : Fin n → Fin 3 → ℝ
  shs : Option (Fin n → Fin m → Fin 3 → ℝ)
  colors_precomp : Option (Fin n → Fin 3 → ℝ)
  opacities : Fin n → ℝ
  scales : Option (Fin n → Fin 3 → ℝ)
  rotations : Option (Fin n → Fin 4 → ℝ)
  cov3D_precomp : Option (Fin n → Fin 6 → ℝ)

/-- What the rasterizer returns (line 247): `rendered_image, radii,
depth`; `radii` is an integer tensor of per-Gaussian screen radii. -/
structure RasterizerOutput (n H W : ℕ) where
  rendered_image : Fin 3 → Fin H → Fin W → ℝ
  radii : Fin n → ℤ
  depth : Fin 1 → Fin H → Fin W → ℝ

/-- What `render` returns (lines 259-263). -/
structure RenderOut (n H W : ℕ) where
  render : Fin 3 → Fin H → Fin W → ℝ
  rendered_depth : Fin 1 → Fin H → Fin W → ℝ
  viewspace_points : Fin n → Fin 3 → ℝ
  visibility_filter : Fin n → Bool
  radii : Fin n → ℤ

/-- The signature of `eval_sh(deg, sh, dirs)` (a black box from
`nerfstudio/utils/gaussian_splatting_sh_utils.py`): spherical-harmonic
coefficients shaped `n × 3 × m` and directions shaped `n × 3` give a
per-Gaussian, per-channel value. -/
abbrev EvalSh (n m : ℕ) :=
  ℕ → (Fin n → Fin 3 → Fin m → ℝ) → (Fin n → Fin 3 → ℝ) → Fin n → Fin 3 → ℝ

/-- Line 236: `pc.get_features.transpose(1, 2).view(-1, 3, (pc.max_sh_degree + 1) ** 2)`. -/
def shs_view {n m : ℕ} (pc : GaussianField n m) : Fin n → Fin 3 → Fin m → ℝ :=
  fun i c k => pc.get_features i k c

/-- Line 237: `pc.get_xyz - viewpoint_camera.camera_center.repeat(...)`. -/
def dir_pp {n m : ℕ} (pc : GaussianField n m) (camera_center : Fin 3 → ℝ) :
    Fin n → Fin 3 → ℝ :=
  fun i c => pc.get_xyz i c - camera_center c

/-- `t.norm(dim=1)` on an `n × 3` tensor: the Euclidean norm of each
row. -/
noncomputable def rowNorm (v : Fin 3 → ℝ) : ℝ :=
  Real.sqrt (v 0 ^ 2 + v 1 ^ 2 + v 2 ^ 2)

/-- Line 238: `dir_pp / dir_pp.norm(dim=1, keepdim=True)`. -/
noncomputable def dir_pp_normalized {n m : ℕ} (pc : GaussianField n m)
    (camera_center : Fin 3 → ℝ) : Fin n → Fin 3 → ℝ :=
  fun i c => dir_pp pc camera_center i c / rowNorm (dir_pp pc camera_center i)

/-- Lines 232-244: the `(shs, colors_precomp)` pair passed to the
rasterizer. -/
noncomputable def colorSelection {n m : ℕ} (eval_sh : EvalSh n m)
    (viewpoint_camera : ViewpointCamera) (pc : GaussianField n m)
    (pipe : PipelineParams) (override_color : Option (Fin n → Fin 3 → ℝ)) :
    Option (Fin n → Fin m → Fin 3 → ℝ) × Option (Fin n → Fin 3 → ℝ) :=
  match override_color with
  | none =>
    if pipe.convert_SHs_python then
      let sh2rgb :=
        eval_sh pc.active_sh_degree (shs_view pc)
          (dir_pp_normalized pc viewpoint_camera.camera_center)
      (none, some fun i c => max (sh2rgb i c + 0.5) 0)
    else
      (some pc.get_features, none)
  | some c => (none, some c)

/-- Lines 221-228: the `(scales, rotations, cov3D_precomp)` triple
passed to the rasterizer. -/
def covSelection {n m : ℕ} (pc : GaussianField n m) (pipe : PipelineParams)
    (scaling_modifier : ℝ) :
    Option (Fin n → Fin 3 → ℝ) × Option (Fin n → Fin 4 → ℝ) × Option (Fin n → Fin 6 → ℝ) :=
  if pipe.compute_cov3D_python then
    (none, none, some (pc.get_covariance scaling_modifier))
  else
    (some pc.get_scaling, some pc.get_rotation, none)

/-- Lines 195-211: assemble `GaussianRasterizationSettings`. -/
noncomputable def renderSettings {n m : ℕ} (viewpoint_camera : ViewpointCamera)
    (pc : GaussianField n m) (pipe : PipelineParams) (bg_color : Fin 3 → ℝ)
    (scaling_modifier : ℝ) : GaussianRasterizationSettings :=
  { image_height := viewpoint_camera.image_height,
    image_width := viewpoint_camera.image_width,
    tanfovx := Real.tan (viewpoint_camera.FoVx * 0.5),
    tanfovy := Real.tan (viewpoint_camera.FoVy * 0.5),
    bg := bg_color,
    scale_modifier := scaling_modifier,
    viewmatrix := viewpoint_camera.world_view_transform,
    projmatrix := viewpoint_camera.full_proj_transform,
    sh_degree := pc.active_sh_degree,
    campos := viewpoint_camera.camera_center,
    prefiltered := false,
    debug := pipe.debug }

/-- Lines 187-255: the keyword arguments `render` hands to the
rasterizer; `screenspace_points` is the all-zero gradient buffer of
line 187-188. -/
noncomputable def renderRasterInput {n m : ℕ} (eval_sh : EvalSh n m)
    (viewpoint_camera : ViewpointCamera) (pc : GaussianField n m)
    (pipe : PipelineParams) (scaling_modifier : ℝ)
    (override_color : Option (Fin n → Fin 3 → ℝ)) : RasterizerInput n m :=
  let screenspace_points : Fin n → Fin 3 → ℝ := fun _ _ => 0
  let cov := covSelection pc pipe scaling_modifier
  let cols := colorSelection eval_sh viewpoint_camera pc pipe override_color
  { means3D := pc.get_xyz,
    means2D := screenspace_points,
    shs := cols.1,
    colors_precomp := cols.2,
    opacities := pc.get_opacity,
    scales := cov.1,
    rotations := cov.2.1,
    cov3D_precomp := cov.2.2 }

/-- The static `render` method (lines 178-263), with the
`GaussianRasterizer` as a black-box parameter from settings and keyword
arguments to its three results. -/
noncomputable def render {n m H W : ℕ}
    (rasterizer : GaussianRasterizationSettings → RasterizerInput n m → RasterizerOutput n H W)
    (eval_sh : EvalSh n m) (viewpoint_camera : ViewpointCamera)
    (pc : GaussianField n m) (pipe : PipelineParams) (bg_color : Fin 3 → ℝ)
    (scaling_modifier : ℝ) (override_color : Option (Fin n → Fin 3 → ℝ)) :
    RenderOut n H W :=
  let raster_settings := renderSettings viewpoint_camera pc pipe bg_color scaling_modifier
  let rin := renderRasterInput eval_sh viewpoint_camera pc pipe scaling_modifier override_color
  let out := rasterizer raster_settings rin
  { render := out.rendered_image,
    rendered_depth := out.depth,
    viewspace_points := rin.means2D,
    visibility_filter := fun i => decide (0 < out.radii i),
    radii := out.radii }

/-! ## Concrete instances used for witnesses and counterexamples -/

/-- The key list of the output dictionary. -/
def outputKeys {H W : ℕ} [NeZero H] [NeZero W] (ds : Bool)
    (at_model : BImage 3 H W → BImage 1 H W → BImage 3 H W × BImage 3 H W)
    (bs_model : BImage 1 H W → BImage 3 H W)
    (image : Image 3 H W) (depth_image : Image 1 H W) : List String :=
  (get_outputs_for_camera_ray_bundle ds at_model bs_model image depth_image).map Prod.fst

/-- A constant-zero stand-in for `AttenuateNet`. -/
def zeroAtModel (H W : ℕ) : BImage 3 H W → BImage 1 H W → BImage 3 H W × BImage 3 H W :=
  fun _ _ => (fun _ _ _ _ => 0, fun _ _ _ _ => 0)

/-- A constant-zero stand-in for `BackscatterNet`. -/
def zeroBsModel (H W : ℕ) : BImage 1 H W → BImage 3 H W :=
  fun _ _ _ _ _ => 0

/-- An all-zero image. -/
def zeroImage (C H W : ℕ) : Image C H W := fun _ _ _ => 0

/-- A `1 × 2 × 2` depth image whose pixel `(0, 0)` is `5` and whose
other pixels (hence the frame maximum) are `10`. -/
def depthFive : Image 1 2 2 := fun _ h w => if h = 0 ∧ w = 0 then 5 else 10

/-- The identity pose as a `3 × 4` camera-to-world matrix. -/
def c2wId : Matrix (Fin 3) (Fin 4) ℚ :=
  Matrix.of fun i j => if (i : ℕ) = (j : ℕ) then 1 else 0

/-! ## Claims -/

/-- The executable inverse used by the embedding agrees with Mathlib's
matrix inverse. -/
theorem matInv_eq_inv (m : Matrix (Fin 4) (Fin 4) ℚ) : matInv m = m⁻¹ := by
  rw [matInv, Matrix.inv_def, Ring.inverse_eq_inv]

/-- C7: for positive focal length and pixel dimension, converting focal
length to field of view by `fov = 2·atan(d/(2·f))` and back by
`focal = d/(2·tan(fov/2))` returns the original focal length. -/
theorem fov2focal_focal2fov_roundtrip (f d : ℝ) (hf : 0 < f) (hd : 0 < d) :
    fov2focal (focal2fov f d) d = f := by
  unfold fov2focal focal2fov
  rw [show 2 * Real.arctan (d / (2 * f)) / 2 = Real.arctan (d / (2 * f)) by ring,
    Real.tan_arctan]
  field_simp
  ring

/-- Witness for C7 at `f = 1`, `d = 2`. -/
theorem fov2focal_focal2fov_roundtrip_witness : fov2focal (focal2fov 1 2) 2 = 1 :=
  fov2focal_focal2fov_roundtrip 1 2 (by norm_num) (by norm_num)

/-- C10: underwater compositing is enabled exactly when both model path
arguments differ from the literal string `"None"`; the models are loaded
at construction exactly when the flag is set, and leaving both paths at
their Python `None` default still enables compositing and the load. -/
theorem do_seathru_enabled_iff :
    (∀ attenuation_model_path backscatter_model_path : Option String,
      ((initState attenuation_model_path backscatter_model_path).do_seathru = true ↔
        attenuation_model_path ≠ some "None" ∧ backscatter_model_path ≠ some "None") ∧
      (initState attenuation_model_path backscatter_model_path).models_loaded =
        (initState attenuation_model_path backscatter_model_path).do_seathru) ∧
    (initState none none).do_seathru = true ∧ (initState none none).models_loaded = true := by
  refine ⟨fun ap bp => ⟨?_, rfl⟩, rfl, rfl⟩
  simp [initState, do_seathru, pyStrNeNone]

/-- C1: `ns2gs_camera` homogenizes the camera-to-world transform by
appending the row `[0,0,0,1]`, left-multiplies the configured
orientation-correction transform, negates exactly columns 1 and 2 of
the first three rows, inverts the result, and returns `R` equal to the
transpose of the upper-left `3 × 3` of that inverse and `T` equal to its
translation column. -/
theorem ns2gs_camera_spec (o : Option (Matrix (Fin 4) (Fin 4) ℚ))
    (c2w : Matrix (Fin 3) (Fin 4) ℚ)
    (h : (correctedC2w o c2w).det ≠ 0) :
    (∀ j, homogenize c2w 3 j = if j = 3 then 1 else 0) ∧
    (∀ (i : Fin 3) (j : Fin 4), homogenize c2w i.castSucc j = c2w i j) ∧
    (∀ t, correctedC2w (some t) c2w = axisFlip (t * homogenize c2w)) ∧
    correctedC2w none c2w = axisFlip (homogenize c2w) ∧
    (∀ (m : Matrix (Fin 4) (Fin 4) ℚ) (i j : Fin 4),
      axisFlip m i j = if (i : ℕ) < 3 ∧ ((j : ℕ) = 1 ∨ (j : ℕ) = 2) then -(m i j) else m i j) ∧
    ns2gs_camera o c2w = .ok
      (Matrix.of fun i j : Fin 3 => (correctedC2w o c2w)⁻¹ j.castSucc i.castSucc,
       fun i : Fin 3 => (correctedC2w o c2w)⁻¹ i.castSucc 3) := by
  have h3 : ¬(((3 : Fin 4) : ℕ) < 3) := by decide
  refine ⟨fun j => by simp [homogenize, h3], fun i j => by simp [homogenize],
    fun t => rfl, rfl, fun m i j => rfl, ?_⟩
  rw [ns2gs_camera, if_neg h]
  simp only [matInv_eq_inv]

/-- Witness for C1 at the identity pose with no orientation correction. -/
theorem ns2gs_camera_spec_witness :
    (∀ j, homogenize c2wId 3 j = if j = 3 then 1 else 0) ∧
    (∀ (i : Fin 3) (j : Fin 4), homogenize c2wId i.castSucc j = c2wId i j) ∧
    (∀ t, correctedC2w (some t) c2wId = axisFlip (t * homogenize c2wId)) ∧
    correctedC2w none c2wId = axisFlip (homogenize c2wId) ∧
    (∀ (m : Matrix (Fin 4) (Fin 4) ℚ) (i j : Fin 4),
      axisFlip m i j = if (i : ℕ) < 3 ∧ ((j : ℕ) = 1 ∨ (j : ℕ) = 2) then -(m i j) else m i j) ∧
    ns2gs_camera none c2wId = .ok
      (Matrix.of fun i j : Fin 3 => (correctedC2w none c2wId)⁻¹ j.castSucc i.castSucc,
       fun i : Fin 3 => (correctedC2w none c2wId)⁻¹ i.castSucc 3) :=
  ns2gs_camera_spec none c2wId (by
    norm_num [correctedC2w, applyOrientation, Matrix.det_succ_row_zero, Fin.sum_univ_succ,
      axisFlip, homogenize, c2wId, Fin.succAbove, Fin.ext_iff] <;> decide)

/-- C8 (amended): when the corrected camera-to-world matrix is singular,
`ns2gs_camera` fails with the linear-algebra inversion error that
`np.linalg.inv` raises (`LinAlgError`), not with a
`DegenerateCameraError`. -/
theorem ns2gs_camera_singular_raises_linalgerror
    (o : Option (Matrix (Fin 4) (Fin 4) ℚ)) (c2w : Matrix (Fin 3) (Fin 4) ℚ)
    (h : (correctedC2w o c2w).det = 0) :
    ns2gs_camera o c2w = .error .linAlgError := by
  rw [ns2gs_camera, if_pos h]

/-- Witness for C8's amended theorem at the all-zero (singular) pose. -/
theorem ns2gs_camera_singular_raises_linalgerror_witness :
    ns2gs_camera none (0 : Matrix (Fin 3) (Fin 4) ℚ) = .error .linAlgError :=
  ns2gs_camera_singular_raises_linalgerror none 0 (by
    norm_num [correctedC2w, applyOrientation, Matrix.det_succ_row_zero, Fin.sum_univ_succ,
      axisFlip, homogenize, Fin.succAbove, Fin.ext_iff])

/-- Counterexample for C8 as stated: on the all-zero (singular)
camera-to-world matrix the conversion does not produce a
`DegenerateCameraError` (it produces the `LinAlgError` of
`np.linalg.inv`). -/
theorem ns2gs_camera_degenerate_cex :
    ns2gs_camera none (0 : Matrix (Fin 3) (Fin 4) ℚ) ≠ .error .degenerateCameraError := by
  have h : (correctedC2w none (0 : Matrix (Fin 3) (Fin 4) ℚ)).det = 0 := by
    norm_num [correctedC2w, applyOrientation, Matrix.det_succ_row_zero, Fin.sum_univ_succ,
      axisFlip, homogenize, Fin.succAbove, Fin.ext_iff]
  rw [ns2gs_camera, if_pos h]
  exact fun hc => CameraError.noConfusion (Except.error.inj hc)

/-- C2 (amended): the `"depth"` entry of the output bundle equals the
raw rendered depth divided by the frame's maximum depth, reordered to
`H × W × C`, when underwater compositing is disabled — in particular a
raw pixel of `5` in a frame of maximum `10` normalizes to exactly `1/2`
— but when compositing is enabled the `"depth"` entry is the raw
rendered depth reordered to `H × W × C`, without the normalization. -/
theorem depth_output_normalization {H W : ℕ} [NeZero H] [NeZero W]
    (at_model : BImage 3 H W → BImage 1 H W → BImage 3 H W × BImage 3 H W)
    (bs_model : BImage 1 H W → BImage 3 H W)
    (image : Image 3 H W) (depth_image : Image 1 H W) :
    List.lookup "depth"
        (get_outputs_for_camera_ray_bundle false at_model bs_model image depth_image)
      = some (.img1 (permuteHWC fun c h w => depth_image c h w / maxEntry depth_image)) ∧
    List.lookup "depth"
        (get_outputs_for_camera_ray_bundle true at_model bs_model image depth_image)
      = some (.img1 (permuteHWC depth_image)) ∧
    (∀ h w, depth_image 0 h w = 5 → maxEntry depth_image = 10 →
      permuteHWC (fun c h w => depth_image c h w / maxEntry depth_image) h w 0 = 1 / 2) := by
  refine ⟨rfl, rfl, fun h w h5 hmax => ?_⟩
  simp only [permuteHWC]
  rw [h5, hmax]
  norm_num

/-- Witness for C2's amended theorem on a `2 × 2` frame with a depth
pixel of `5` among pixels of `10`. -/
theorem depth_output_normalization_witness :
    List.lookup "depth"
        (get_outputs_for_camera_ray_bundle false (zeroAtModel 2 2) (zeroBsModel 2 2)
          (zeroImage 3 2 2) depthFive)
      = some (.img1 (permuteHWC fun c h w => depthFive c h w / maxEntry depthFive)) ∧
    List.lookup "depth"
        (get_outputs_for_camera_ray_bundle true (zeroAtModel 2 2) (zeroBsModel 2 2)
          (zeroImage 3 2 2) depthFive)
      = some (.img1 (permuteHWC depthFive)) ∧
    (∀ h w, depthFive 0 h w = 5 → maxEntry depthFive = 10 →
      permuteHWC (fun c h w => depthFive c h w / maxEntry depthFive) h w 0 = 1 / 2) :=
  depth_output_normalization (zeroAtModel 2 2) (zeroBsModel 2 2) (zeroImage 3 2 2) depthFive

/-- Counterexample for C2 as stated: with underwater compositing
enabled and a rendered depth frame holding a pixel of `5` among pixels
of `10`, the returned `"depth"` entry is not the per-frame-normalized
depth (it is the raw depth), so the claim's "regardless of whether
underwater compositing is enabled" fails. -/
theorem depth_output_normalization_cex :
    List.lookup "depth"
        (get_outputs_for_camera_ray_bundle true (zeroAtModel 2 2) (zeroBsModel 2 2)
          (zeroImage 3 2 2) depthFive)
      ≠ some (.img1 (permuteHWC fun c h w => depthFive c h w / maxEntry depthFive)) := by
  have hmax : maxEntry depthFive = 10 := by decide
  have hlhs : List.lookup "depth"
      (get_outputs_for_camera_ray_bundle true (zeroAtModel 2 2) (zeroBsModel 2 2)
        (zeroImage 3 2 2) depthFive)
      = some (.img1 (permuteHWC depthFive)) := rfl
  rw [hlhs]
  intro hc
  have h2 : permuteHWC depthFive
      = permuteHWC fun c h w => depthFive c h w / maxEntry depthFive :=
    OutValue.img1.inj (Option.some.inj hc)
  have h4 := congrFun (congrFun (congrFun h2 0) 0) 0
  simp only [permuteHWC] at h4
  norm_num [depthFive, hmax] at h4

/-- C3: when either compositing model is unset (its path argument holds
the sentinel `"None"`, so `do_seathru` is false and no model is
loaded), the output dictionary has exactly the keys `rgb` and `depth`,
and none of `backscatter`, `attenuation`, `direct`,
`underwater_image`. -/
theorem outputs_keys_when_model_unset {H W : ℕ} [NeZero H] [NeZero W]
    (ap bp : Option String)
    (at_model : BImage 3 H W → BImage 1 H W → BImage 3 H W × BImage 3 H W)
    (bs_model : BImage 1 H W → BImage 3 H W)
    (image : Image 3 H W) (depth_image : Image 1 H W)
    (h : ap = some "None" ∨ bp = some "None") :
    outputKeys (do_seathru ap bp) at_model bs_model image depth_image = ["rgb", "depth"] ∧
    "backscatter" ∉ outputKeys (do_seathru ap bp) at_model bs_model image depth_image ∧
    "attenuation" ∉ outputKeys (do_seathru ap bp) at_model bs_model image depth_image ∧
    "direct" ∉ outputKeys (do_seathru ap bp) at_model bs_model image depth_image ∧
    "underwater_image" ∉ outputKeys (do_seathru ap bp) at_model bs_model image depth_image := by
  have hds : do_seathru ap bp = false := by
    rcases h with h | h <;> subst h <;> simp [do_seathru, pyStrNeNone]
  have hk : outputKeys false at_model bs_model image depth_image = ["rgb", "depth"] := rfl
  rw [hds, hk]
  exact ⟨rfl, by decide, by decide, by decide, by decide⟩

/-- Witness for C3 with the attenuation path at the sentinel `"None"`. -/
theorem outputs_keys_when_model_unset_witness :
    outputKeys (do_seathru (some "None") none) (zeroAtModel 1 1) (zeroBsModel 1 1)
        (zeroImage 3 1 1) (zeroImage 1 1 1) = ["rgb", "depth"] ∧
    "backscatter" ∉ outputKeys (do_seathru (some "None") none) (zeroAtModel 1 1)
        (zeroBsModel 1 1) (zeroImage 3 1 1) (zeroImage 1 1 1) ∧
    "attenuation" ∉ outputKeys (do_seathru (some "None") none) (zeroAtModel 1 1)
        (zeroBsModel 1 1) (zeroImage 3 1 1) (zeroImage 1 1 1) ∧
    "direct" ∉ outputKeys (do_seathru (some "None") none) (zeroAtModel 1 1)
        (zeroBsModel 1 1) (zeroImage 3 1 1) (zeroImage 1 1 1) ∧
    "underwater_image" ∉ outputKeys (do_seathru (some "None") none) (zeroAtModel 1 1)
        (zeroBsModel 1 1) (zeroImage 3 1 1) (zeroImage 1 1 1) :=
  outputs_keys_when_model_unset (some "None") none _ _ _ _ (Or.inl rfl)

/-- C4: when underwater compositing runs, every pixel of the returned
underwater image is `clamp(direct + backscatter, 0, 1)`, where `direct`
is the attenuation model's first output on the (colour, depth) pair and
`backscatter` is the backscatter model's output on the depth alone. -/
theorem underwater_image_is_clamped_sum {H W : ℕ} [NeZero H] [NeZero W]
    (at_model : BImage 3 H W → BImage 1 H W → BImage 3 H W × BImage 3 H W)
    (bs_model : BImage 1 H W → BImage 3 H W)
    (image : Image 3 H W) (depth_image : Image 1 H W) :
    List.lookup "underwater_image"
        (get_outputs_for_camera_ray_bundle true at_model bs_model image depth_image)
      = some (.img3 fun h w c =>
          qclamp ((at_model (unsqueeze image) (unsqueeze depth_image)).1 0 c h w
              + bs_model (unsqueeze depth_image) 0 c h w) 0 1) := rfl

/-- Witness for C4 with the zero stand-in compositing models on a
`1 × 1` frame. -/
theorem underwater_image_is_clamped_sum_witness :
    List.lookup "underwater_image"
        (get_outputs_for_camera_ray_bundle true (zeroAtModel 1 1) (zeroBsModel 1 1)
          (zeroImage 3 1 1) (zeroImage 1 1 1))
      = some (.img3 fun h w c =>
          qclamp ((zeroAtModel 1 1 (unsqueeze (zeroImage 3 1 1))
                (unsqueeze (zeroImage 1 1 1))).1 0 c h w
              + zeroBsModel 1 1 (unsqueeze (zeroImage 1 1 1)) 0 c h w) 0 1) :=
  underwater_image_is_clamped_sum (zeroAtModel 1 1) (zeroBsModel 1 1)
    (zeroImage 3 1 1) (zeroImage 1 1 1)

/-- C9: the depth normalization is unguarded — on an all-zero rendered
depth frame the code divides by a frame maximum of `0`, a float
division with no finite value (NaN); the normalized depth is
well-defined exactly when the frame maximum is nonzero, in which case
it is the quotient the code computes. -/
theorem depth_normalization_unguarded {H W : ℕ} [NeZero H] [NeZero W]
    (at_model : BImage 3 H W → BImage 1 H W → BImage 3 H W × BImage 3 H W)
    (bs_model : BImage 1 H W → BImage 3 H W)
    (image : Image 3 H W) (depth_image : Image 1 H W)
    (hzero : ∀ c h w, depth_image c h w = 0) :
    maxEntry depth_image = 0 ∧
    List.lookup "depth"
        (get_outputs_for_camera_ray_bundle false at_model bs_model image depth_image)
      = some (.img1 (permuteHWC fun c h w => depth_image c h w / maxEntry depth_image)) ∧
    (∀ c h w, floatDiv (depth_image c h w) (maxEntry depth_image) = none) ∧
    (∀ d : Image 1 H W, maxEntry d ≠ 0 →
      ∀ c h w, floatDiv (d c h w) (maxEntry d) = some (d c h w / maxEntry d)) := by
  have hmax : maxEntry depth_image = 0 := by
    unfold maxEntry
    rw [show (fun p : Fin 1 × Fin H × Fin W => depth_image p.1 p.2.1 p.2.2) = fun _ => (0 : ℚ)
      from funext fun p => hzero _ _ _]
    exact Finset.sup'_const _ 0
  refine ⟨hmax, rfl, fun c h w => ?_, fun d hd c h w => ?_⟩
  · simp [floatDiv, hmax]
  · simp [floatDiv, hd]

/-- Witness for C9 on the all-zero `1 × 1 × 1` depth frame. -/
theorem depth_normalization_unguarded_witness :
    maxEntry (zeroImage 1 1 1) = 0 ∧
    List.lookup "depth"
        (get_outputs_for_camera_ray_bundle false (zeroAtModel 1 1) (zeroBsModel 1 1)
          (zeroImage 3 1 1) (zeroImage 1 1 1))
      = some (.img1 (permuteHWC fun c h w =>
          zeroImage 1 1 1 c h w / maxEntry (zeroImage 1 1 1))) ∧
    (∀ c h w, floatDiv (zeroImage 1 1 1 c h w) (maxEntry (zeroImage 1 1 1)) = none) ∧
    (∀ d : Image 1 1 1, maxEntry d ≠ 0 →
      ∀ c h w, floatDiv (d c h w) (maxEntry d) = some (d c h w / maxEntry d)) :=
  depth_normalization_unguarded (zeroAtModel 1 1) (zeroBsModel 1 1) (zeroImage 3 1 1)
    (zeroImage 1 1 1) (fun _ _ _ => rfl)

/-- C5: the visibility filter `render` returns is elementwise
`radii > 0` over the per-Gaussian screen radii the rasterizer returned:
a Gaussian is marked visible exactly when its radius is positive, and
`render`'s `radii` field is the rasterizer's radii tensor. -/
theorem visibility_filter_is_radii_pos {n m H W : ℕ}
    (rasterizer : GaussianRasterizationSettings → RasterizerInput n m → RasterizerOutput n H W)
    (eval_sh : EvalSh n m) (viewpoint_camera : ViewpointCamera)
    (pc : GaussianField n m) (pipe : PipelineParams) (bg_color : Fin 3 → ℝ)
    (scaling_modifier : ℝ) (override_color : Option (Fin n → Fin 3 → ℝ)) :
    ∀ i : Fin n,
      ((render rasterizer eval_sh viewpoint_camera pc pipe bg_color scaling_modifier
          override_color).visibility_filter i = true ↔
        0 < (rasterizer (renderSettings viewpoint_camera pc pipe bg_color scaling_modifier)
            (renderRasterInput eval_sh viewpoint_camera pc pipe scaling_modifier
              override_color)).radii i) ∧
      (render rasterizer eval_sh viewpoint_camera pc pipe bg_color scaling_modifier
          override_color).radii i
        = (rasterizer (renderSettings viewpoint_camera pc pipe bg_color scaling_modifier)
            (renderRasterInput eval_sh viewpoint_camera pc pipe scaling_modifier
              override_color)).radii i := by
  intro i
  exact ⟨by simp [render], rfl⟩

/-- C6: exactly one of spherical-harmonic coefficients and precomputed
colours is passed to the rasterizer; an override colour is used directly
as precomputed colour, else host-side SH evaluation yields
`clamp_min(eval_sh(active degree, coefficients, normalized direction) + 0.5, 0)`
as precomputed colour, else the raw SH coefficients are passed and the
precomputed colour is absent. -/
theorem render_color_source_selection {n m : ℕ} (eval_sh : EvalSh n m)
    (viewpoint_camera : ViewpointCamera) (pc : GaussianField n m)
    (pipe : PipelineParams) (scaling_modifier : ℝ)
    (override_color : Option (Fin n → Fin 3 → ℝ)) :
    ((renderRasterInput eval_sh viewpoint_camera pc pipe scaling_modifier
        override_color).shs.isSome
      = !(renderRasterInput eval_sh viewpoint_camera pc pipe scaling_modifier
        override_color).colors_precomp.isSome) ∧
    (∀ c, override_color = some c →
      (renderRasterInput eval_sh viewpoint_camera pc pipe scaling_modifier
          override_color).shs = none ∧
      (renderRasterInput eval_sh viewpoint_camera pc pipe scaling_modifier
          override_color).colors_precomp = some c) ∧
    (override_color = none → pipe.convert_SHs_python = true →
      (renderRasterInput eval_sh viewpoint_camera pc pipe scaling_modifier
          override_color).shs = none ∧
      (renderRasterInput eval_sh viewpoint_camera pc pipe scaling_modifier
          override_color).colors_precomp
        = some (fun i ch =>
            max (eval_sh pc.active_sh_degree (shs_view pc)
              (dir_pp_normalized pc viewpoint_camera.camera_center) i ch + 0.5) 0)) ∧
    (override_color = none → pipe.convert_SHs_python = false →
      (renderRasterInput eval_sh viewpoint_camera pc pipe scaling_modifier
          override_color).shs = some pc.get_features ∧
      (renderRasterInput eval_sh viewpoint_camera pc pipe scaling_modifier
          override_color).colors_precomp = none) := by
  rcases override_color with _ | c
  · by_cases hc : pipe.convert_SHs_python <;>
      simp [renderRasterInput, colorSelection, hc]
  · simp [renderRasterInput, colorSelection]

end GaussianSplatting
